import Mathlib

/-!
Shallow embedding of the Recipe-AI-Assistant application (`app.py`).

The application is a single-file Streamlit app around one outbound call to a
generative-AI API.  The logic embedded here, function by function from the
source:

* `safe_ai_request` (app.py lines 47-68): a fixed-count retry loop around
  `model.generate_content`, with linear backoff on rate-limit errors.
  The external API is modelled as an oracle `Nat → Except String String`
  giving the outcome (response text or raised error message) of each call
  the loop makes; the loop additionally records a trace of observable
  events (calls, sleeps, UI messages) so that retry/backoff claims can be
  stated.
* `get_smart_recipes` (lines 70-129): response cleaning
  (`re.sub` over markdown fences), `json.loads`, and the regex extraction
  `re.search(r'\x7b.*\x7d', text, re.DOTALL)` fallback.
* `get_fallback_recipes` (lines 131-195): keyword-matched hard-coded
  templates.
* the ingredient parsing of `main` (line 242).

Python values that can flow out of `json.loads` are modelled by the
inductive type `Json`; numbers keep their source literal (enough to decide
Python truthiness exactly: a JSON number is zero iff its mantissa has no
digit 1-9).  `json.loads` itself is Python standard library, re-implemented
here for the standard JSON grammar (objects, arrays, strings with escapes,
numbers, true/false/null, the four JSON whitespace characters); the
non-standard `NaN`/`Infinity` extensions of the Python parser are not
modelled.  Python `str.lower`/`\s` are modelled at ASCII granularity.
-/

/-- Python substring operator `in` for strings: `needle in hay` holds iff
`needle` occurs contiguously in `hay`.  The empty needle is contained in
everything, as in Python. -/
def pyIn (needle : List Char) : List Char → Bool
  | [] => needle.isEmpty
  | c :: t => needle.isPrefixOf (c :: t) || pyIn needle t

/-- Python `str.lower()` (ASCII granularity). -/
def py_lower (s : String) : List Char :=
  s.data.map Char.toLower

/-- Observable side effects of `safe_ai_request`: API calls, `time.sleep`,
`st.warning` and `st.error` messages. -/
inductive Event where
  | call (attempt : Nat)
  | sleep (secs : Nat)
  | warn (msg : String)
  | err (msg : String)
deriving DecidableEq, Repr

/-- app.py line 60: `"quota" in error_msg.lower() or "rate limit" in error_msg.lower()`. -/
def isRateLimit (error_msg : String) : Bool :=
  pyIn "quota".data (py_lower error_msg) || pyIn "rate limit".data (py_lower error_msg)

/-- Loop body of `safe_ai_request` (app.py lines 49-67), processing the
remaining attempt indices in order.  Each iteration sleeps one second when
`attempt > 0`, makes one API call, and on a raised error either backs off
`(attempt + 1) * 3` seconds and continues (rate-limit error) or shows the
error and returns `None`.  Returns the result together with the event trace. -/
def safe_ai_loop (model : Nat → Except String String) : List Nat → Option String × List Event
  | [] => (none, [])
  | attempt :: rest =>
    let pre : List Event := if attempt > 0 then [Event.sleep 1] else []
    match model attempt with
    | Except.ok response => (some response, pre ++ [Event.call attempt])
    | Except.error e =>
      if isRateLimit e then
        let wait_time := (attempt + 1) * 3
        let r := safe_ai_loop model rest
        (r.1, pre ++ [Event.call attempt,
                      Event.warn ("⏳ Rate limit hit. Waiting " ++ toString wait_time ++ " seconds..."),
                      Event.sleep wait_time] ++ r.2)
      else
        (none, pre ++ [Event.call attempt, Event.err ("API Error: " ++ e)])

/-- app.py lines 47-68: `safe_ai_request(model, prompt, max_retries=2)`.
`for attempt in range(max_retries)`, then `return None` after the loop.
The prompt does not influence the embedded control flow; the oracle `model`
determines each call's outcome. -/
def safe_ai_request (model : Nat → Except String String) (max_retries : Nat := 2) :
    Option String × List Event :=
  safe_ai_loop model (List.range max_retries)

/-- Number of API calls recorded in a trace. -/
def countCalls (evs : List Event) : Nat :=
  (evs.filter (fun e => match e with | Event.call _ => true | _ => false)).length

/-- Python values that can result from `json.loads` (and the hard-coded
fallback recipe dictionaries).  Numbers keep the matched source literal:
this is enough to decide Python truthiness exactly, and no arithmetic is
ever performed on them in `app.py`. -/
inductive Json where
  | null
  | bool (b : Bool)
  | num (raw : String)
  | str (s : String)
  | arr (xs : List Json)
  | obj (kvs : List (String × Json))

/-- Python `dict.get`: the binding of the LAST occurrence of the key wins,
as in a Python dict built by repeated insertion. -/
def dictGet (kvs : List (String × Json)) (k : String) : Option Json :=
  (kvs.reverse.find? (fun p => p.1 == k)).map Prod.snd

/-- Python truthiness of a `Json` value.  A JSON number literal denotes zero
iff its mantissa (the part before any exponent marker) has no digit 1-9. -/
def pyTruthy : Json → Bool
  | Json.null => false
  | Json.bool b => b
  | Json.num raw =>
      (raw.data.takeWhile (fun c => c ≠ 'e' && c ≠ 'E')).any
        (fun c => '1' ≤ c && c ≤ '9')
  | Json.str s => !s.data.isEmpty
  | Json.arr xs => !xs.isEmpty
  | Json.obj kvs => !kvs.isEmpty

/-! The JSON parser: a re-implementation of Python `json.loads` for the
standard JSON grammar, used by `get_smart_recipes`.  Written as a
fuel-indexed recursive-descent parser on `List Char`; fuel
`input length + 1` always suffices because every recursive call consumes at
least one character first. -/

/-- JSON inter-token whitespace (as accepted by the Python parser). -/
def jsonWS (c : Char) : Bool :=
  c = ' ' || c = '\t' || c = '\n' || c = '\r'

/-- Hexadecimal digit value of a character, if any (0-9, a-f, A-F by their
code points). -/
def hexVal (c : Char) : Option Nat :=
  let n := c.toNat
  if 48 ≤ n ∧ n ≤ 57 then some (n - 48)
  else if 97 ≤ n ∧ n ≤ 102 then some (n - 87)
  else if 65 ≤ n ∧ n ≤ 70 then some (n - 55)
  else none

/-- Body of a JSON string, after the opening quote: returns the decoded
characters and the input after the closing quote.  Supports the standard
escapes; a `\u` escape that does not denote a valid scalar value falls back
to `Char.ofNat`'s default (the Python parser would build a surrogate here;
no claim depends on it).  Unescaped control characters are rejected, as in
the strict Python parser. -/
def parseStringBody : Nat → List Char → Option (List Char × List Char)
  | 0, _ => none
  | _, [] => none
  | fuel + 1, c :: cs =>
    if c = Char.ofNat 34 then some ([], cs)
    else if c = '\\' then
      match cs with
      | [] => none
      | e :: cs' =>
        if e = Char.ofNat 34 then (parseStringBody fuel cs').map (fun r => (Char.ofNat 34 :: r.1, r.2))
        else if e = '\\' then (parseStringBody fuel cs').map (fun r => ('\\' :: r.1, r.2))
        else if e = '/' then (parseStringBody fuel cs').map (fun r => ('/' :: r.1, r.2))
        else if e = 'b' then (parseStringBody fuel cs').map (fun r => (Char.ofNat 8 :: r.1, r.2))
        else if e = 'f' then (parseStringBody fuel cs').map (fun r => (Char.ofNat 12 :: r.1, r.2))
        else if e = 'n' then (parseStringBody fuel cs').map (fun r => ('\n' :: r.1, r.2))
        else if e = 'r' then (parseStringBody fuel cs').map (fun r => (Char.ofNat 13 :: r.1, r.2))
        else if e = 't' then (parseStringBody fuel cs').map (fun r => ('\t' :: r.1, r.2))
        else if e = 'u' then
          match cs' with
          | h1 :: h2 :: h3 :: h4 :: cs'' =>
            match hexVal h1, hexVal h2, hexVal h3, hexVal h4 with
            | some v1, some v2, some v3, some v4 =>
              let code := ((v1 * 16 + v2) * 16 + v3) * 16 + v4
              (parseStringBody fuel cs'').map (fun r => (Char.ofNat code :: r.1, r.2))
            | _, _, _, _ => none
          | _ => none
        else none
    else if c.toNat < 32 then none
    else (parseStringBody fuel cs).map (fun r => (c :: r.1, r.2))

/-- Fraction part of a JSON number literal (`.` followed by digits), if
present; returns the matched characters and the rest. -/
def parseFrac (l : List Char) : List Char × List Char :=
  match l with
  | '.' :: d :: ds =>
    if d.isDigit then ('.' :: d :: ds.takeWhile Char.isDigit, ds.dropWhile Char.isDigit)
    else ([], l)
  | _ => ([], l)

/-- Exponent part of a JSON number literal (`e`/`E`, optional sign, digits),
if present; returns the matched characters and the rest. -/
def parseExp (l : List Char) : List Char × List Char :=
  match l with
  | e :: s :: d :: ds =>
    if e = 'e' ∨ e = 'E' then
      if (s = '+' ∨ s = '-') ∧ d.isDigit then
        (e :: s :: d :: ds.takeWhile Char.isDigit, ds.dropWhile Char.isDigit)
      else if s.isDigit then
        (e :: s :: (d :: ds).takeWhile Char.isDigit, (d :: ds).dropWhile Char.isDigit)
      else ([], l)
    else ([], l)
  | [e, s] =>
    if (e = 'e' ∨ e = 'E') ∧ s.isDigit then ([e, s], []) else ([], l)
  | _ => ([], l)

/-- JSON number literal: `-? int frac? exp?`, where the integer part is `0`
or starts with a nonzero digit.  Returns the matched literal and the rest. -/
def parseNumber (l : List Char) : Option (Json × List Char) :=
  let (sign, l1) := match l with
    | '-' :: cs => (['-'], cs)
    | _ => (([] : List Char), l)
  match l1 with
  | [] => none
  | c :: cs =>
    if c = '0' then
      let (fracPart, r2) := parseFrac cs
      let (expPart, r3) := parseExp r2
      some (Json.num (String.mk (sign ++ ['0'] ++ fracPart ++ expPart)), r3)
    else if c.isDigit then
      let intPart := c :: cs.takeWhile Char.isDigit
      let r1 := cs.dropWhile Char.isDigit
      let (fracPart, r2) := parseFrac r1
      let (expPart, r3) := parseExp r2
      some (Json.num (String.mk (sign ++ intPart ++ fracPart ++ expPart)), r3)
    else none

mutual

/-- JSON value, after optional leading whitespace. -/
def parseValue : Nat → List Char → Option (Json × List Char)
  | 0, _ => none
  | fuel + 1, l =>
    match l.dropWhile jsonWS with
    | [] => none
    | c :: cs =>
      if c = Char.ofNat 123 then parseMembers fuel cs true []
      else if c = '[' then parseItems fuel cs true []
      else if c = Char.ofNat 34 then
        (parseStringBody fuel cs).map (fun r => (Json.str (String.mk r.1), r.2))
      else
        match c :: cs with
        | 't' :: 'r' :: 'u' :: 'e' :: rest => some (Json.bool true, rest)
        | 'f' :: 'a' :: 'l' :: 's' :: 'e' :: rest => some (Json.bool false, rest)
        | 'n' :: 'u' :: 'l' :: 'l' :: rest => some (Json.null, rest)
        | l' => parseNumber l'

/-- Members of a JSON object, after the opening brace (`first` marks that no
member has been parsed yet, so a closing brace is allowed immediately). -/
def parseMembers : Nat → List Char → Bool → List (String × Json) → Option (Json × List Char)
  | 0, _, _, _ => none
  | fuel + 1, l, first, acc =>
    match l.dropWhile jsonWS with
    | [] => none
    | c :: cs =>
      if first ∧ c = Char.ofNat 125 then some (Json.obj [], cs)
      else if c = Char.ofNat 34 then
        match parseStringBody fuel cs with
        | none => none
        | some (key, rest) =>
          match rest.dropWhile jsonWS with
          | ':' :: rest2 =>
            match parseValue fuel rest2 with
            | none => none
            | some (v, rest3) =>
              let acc' := acc ++ [(String.mk key, v)]
              match rest3.dropWhile jsonWS with
              | ',' :: rest4 => parseMembers fuel rest4 false acc'
              | c' :: rest4 =>
                if c' = Char.ofNat 125 then some (Json.obj acc', rest4) else none
              | [] => none
          | _ => none
      else none

/-- Items of a JSON array, after the opening bracket. -/
def parseItems : Nat → List Char → Bool → List Json → Option (Json × List Char)
  | 0, _, _, _ => none
  | fuel + 1, l, first, acc =>
    match l.dropWhile jsonWS with
    | [] => none
    | c :: cs =>
      if first ∧ c = ']' then some (Json.arr [], cs)
      else
        match parseValue fuel (c :: cs) with
        | none => none
        | some (v, rest) =>
          let acc' := acc ++ [v]
          match rest.dropWhile jsonWS with
          | ',' :: rest2 => parseItems fuel rest2 false acc'
          | ']' :: rest2 => some (Json.arr acc', rest2)
          | _ => none

end

/-- Python `json.loads` on a character list: parse one JSON value, allowing
surrounding whitespace, and reject trailing input (`Extra data`). -/
def jsonLoadsList (l : List Char) : Option Json :=
  match parseValue (l.length + 1) l with
  | none => none
  | some (v, rest) => if rest.dropWhile jsonWS = [] then some v else none

/-- Python `json.loads`. -/
def json_loads (s : String) : Option Json :=
  jsonLoadsList s.data

/-! Response cleaning, app.py line 105:
`re.sub(r'` ``` `json\s*|\s*` ``` `', '', response_text)`.
The pattern is an alternation of two non-empty branches, so `re.sub` scans
for the leftmost match position, preferring the left branch at equal
positions, removes the (greedy) match and continues after it. -/

/-- Python regex `\s` (ASCII granularity: space, `\t`, `\n`, `\v`, `\f`,
`\r`). -/
def pyIsSpace (c : Char) : Bool :=
  c = ' ' || c = '\t' || c = '\n' || c.toNat = 11 || c.toNat = 12 || c.toNat = 13

/-- Match a literal at the head of the input, returning the rest. -/
def dropLit (lit l : List Char) : Option (List Char) :=
  if lit.isPrefixOf l then some (l.drop lit.length) else none

/-- Left branch of the fence pattern at the current position:
the literal three-backtick-`json` fence followed by a greedy `\s*`. -/
def matchFenceJson (l : List Char) : Option (List Char) :=
  (dropLit ("```json").data l).map (List.dropWhile pyIsSpace)

/-- Right branch of the fence pattern at the current position: a greedy
`\s*` followed by the literal three-backtick fence.  Since the character
after the `\s*` run must be a (non-space) backtick, backtracking never
helps: the branch matches iff the maximal whitespace run is followed by
the fence. -/
def matchFence (l : List Char) : Option (List Char) :=
  dropLit ("```").data (l.dropWhile pyIsSpace)

/-- Fence deletion driver, fuel-indexed so that it evaluates by kernel
reduction.  Every step either consumes a match (at least three characters,
by `matchFenceJson_lt` and `matchFence_lt`) or emits one character, so fuel
equal to the input length always suffices; on exhausted fuel the input is
necessarily `[]` and is returned unchanged. -/
def subFencesGo : Nat → List Char → List Char
  | 0, l => l
  | _ + 1, [] => []
  | fuel + 1, c :: cs =>
    match matchFenceJson (c :: cs) with
    | some rest => subFencesGo fuel rest
    | none =>
      match matchFence (c :: cs) with
      | some rest => subFencesGo fuel rest
      | none => c :: subFencesGo fuel cs

/-- app.py line 105: delete every occurrence of the fence pattern, scanning
left to right. -/
def subFences (l : List Char) : List Char :=
  subFencesGo l.length l

/-- Python `str.strip()` (ASCII whitespace granularity). -/
def stripChars (l : List Char) : List Char :=
  ((l.dropWhile pyIsSpace).reverse.dropWhile pyIsSpace).reverse

/-- app.py lines 102-105: `response.text.strip()` then the fence
substitution. -/
def clean_response (txt : String) : List Char :=
  subFences (stripChars txt.data)

/-- The characters `Char.ofNat 123` and `Char.ofNat 125` (opening and
closing curly braces). -/
def lbrace : Char := Char.ofNat 123

/-- Closing curly brace. -/
def rbrace : Char := Char.ofNat 125

/-- app.py line 117: `re.search(r'\x7b.*\x7d', response_text, re.DOTALL)`.
With a greedy dot-matches-all `.*`, the match (if any) runs from the FIRST
opening brace to the LAST closing brace after it; there is no match iff no
closing brace follows the first opening brace. -/
def extractBraces (l : List Char) : Option (List Char) :=
  match l.dropWhile (fun c => c ≠ lbrace) with
  | [] => none
  | c :: cs =>
    let m := ((c :: cs).reverse.dropWhile (fun c' => c' ≠ rbrace)).reverse
    if m.isEmpty then none else some m

/-! The fallback recipes, app.py lines 131-195. -/

/-- A recipe dictionary literal, with the five fields every template in
`get_fallback_recipes` carries. -/
def recipeJson (name : String) (ings steps : List String) (time effort : String) : Json :=
  Json.obj [("name", Json.str name),
            ("ingredients", Json.arr (ings.map Json.str)),
            ("steps", Json.arr (steps.map Json.str)),
            ("time", Json.str time),
            ("effort", Json.str effort)]

/-- app.py line 134: ingredients with names longer than 2 characters. -/
def usableIngs (ingredients_list : List String) : List String :=
  ingredients_list.filter (fun ing => ing.length > 2)

/-- `' '.join(usable_ings)` as a character list. -/
def joinedUsable (ingredients_list : List String) : List Char :=
  List.intercalate [' '] ((usableIngs ingredients_list).map String.data)

/-- app.py line 139: guard of the stir-fry template. -/
def stirGuard (ingredients_list : List String) : Bool :=
  ["chicken", "beef", "tofu", "vegetable", "broccoli", "carrot"].any
    (fun ing => pyIn ing.data (joinedUsable ingredients_list))

/-- app.py line 153: the usable ingredients containing a fresh-produce
keyword. -/
def freshIngs (ingredients_list : List String) : List String :=
  (usableIngs ingredients_list).filter
    (fun ing => ["lettuce", "tomato", "cucumber", "onion", "spinach"].any
      (fun x => pyIn x.data ing.data))

/-- app.py line 168: guard of the pasta template. -/
def pastaGuard (ingredients_list : List String) : Bool :=
  ["pasta", "noodle", "spaghetti"].any
    (fun ing => pyIn ing.data (joinedUsable ingredients_list))

/-- app.py lines 140-150: the stir-fry template. -/
def stirFryRecipe (usable_ings : List String) : Json :=
  recipeJson "Quick Stir Fry"
    (usable_ings.take 4 ++ ["soy sauce", "cooking oil", "garlic"])
    ["Heat oil in a pan and sauté garlic until fragrant",
     "Add main ingredients and stir fry for 5-7 minutes",
     "Add soy sauce and any seasonings, cook for 2 more minutes"]
    "15 mins" "Easy"

/-- app.py lines 155-165: the salad template. -/
def freshSaladRecipe (fresh_ings : List String) : Json :=
  recipeJson "Fresh Salad"
    (fresh_ings ++ ["olive oil", "vinegar or lemon juice", "salt", "pepper"])
    ["Wash and chop all vegetables",
     "Mix with olive oil and vinegar/lemon juice",
     "Season with salt and pepper to taste"]
    "10 mins" "Very Easy"

/-- app.py lines 169-179: the pasta template. -/
def simplePastaRecipe (usable_ings : List String) : Json :=
  recipeJson "Simple Pasta"
    ((usable_ings.filter (fun ing => pyIn "pasta".data ing.data || pyIn "noodle".data ing.data))
      ++ ["oil", "garlic", "herbs"] ++ usable_ings.take 2)
    ["Cook pasta according to package instructions",
     "Sauté other ingredients in oil with garlic",
     "Combine with cooked pasta and season"]
    "20 mins" "Easy"

/-- app.py lines 183-193: the catch-all template. -/
def simpleCookedRecipe (usable_ings : List String) : Json :=
  recipeJson "Simple Cooked Dish"
    (usable_ings.take 5 ++ ["oil", "salt", "pepper"])
    ["Prepare and chop all ingredients",
     "Cook in oil until tender and flavorful",
     "Season with salt and pepper, serve hot"]
    "20 mins" "Easy"

/-- app.py lines 131-195: `get_fallback_recipes`. -/
def get_fallback_recipes (ingredients_list : List String) : List Json :=
  let usable_ings := usableIngs ingredients_list
  let fb1 : List Json :=
    if stirGuard ingredients_list then [stirFryRecipe usable_ings] else []
  let fb2 : List Json :=
    fb1 ++ (if (freshIngs ingredients_list).length ≥ 2
            then [freshSaladRecipe (freshIngs ingredients_list)] else [])
  let fb3 : List Json :=
    fb2 ++ (if pastaGuard ingredients_list then [simplePastaRecipe usable_ings] else [])
  let fb4 : List Json :=
    if fb3.isEmpty ∧ usable_ings.length ≥ 3 then [simpleCookedRecipe usable_ings] else fb3
  fb4.take 3

/-- app.py lines 102-125: what `get_smart_recipes` does with the text of a
successful API response.  A successful `json.loads` of a non-dict raises
`AttributeError` at `data.get`, which the outer `except` of
`get_smart_recipes` turns into the fallback; in the extraction branch the
bare `except:` does the same. -/
def handle_response (ingredients_list : List String) (txt : String) : Json :=
  let response_text := clean_response txt
  match jsonLoadsList response_text with
  | some (Json.obj kvs) =>
    let recipes := (dictGet kvs "recipes").getD (Json.arr [])
    if pyTruthy recipes then recipes
    else Json.arr (get_fallback_recipes ingredients_list)
  | some _ => Json.arr (get_fallback_recipes ingredients_list)
  | none =>
    match extractBraces response_text with
    | some sub =>
      match jsonLoadsList sub with
      | some (Json.obj kvs) =>
        (dictGet kvs "recipes").getD (Json.arr (get_fallback_recipes ingredients_list))
      | _ => Json.arr (get_fallback_recipes ingredients_list)
    | none => Json.arr (get_fallback_recipes ingredients_list)

/-- app.py lines 70-129: `get_smart_recipes`.  The API is the oracle
`model`; `safe_ai_request` is called with its default `max_retries`. -/
def get_smart_recipes (ingredients_list : List String) (model : Nat → Except String String) : Json :=
  match (safe_ai_request model).1 with
  | none => Json.arr (get_fallback_recipes ingredients_list)
  | some txt => handle_response ingredients_list txt

/-- Python `str.split(',')`: split at every comma, keeping empty segments. -/
def splitCommas : List Char → List (List Char)
  | [] => [[]]
  | c :: cs =>
    match splitCommas cs with
    | [] => [[]]
    | seg :: rest => if c = ',' then [] :: seg :: rest else (c :: seg) :: rest

/-- app.py line 242: the ingredients list built in `main` from the raw
text-area input:
`[ing.strip().lower() for ing in ingredients_text.split(',') if ing.strip()]`. -/
def parse_ingredients (ingredients_text : String) : List String :=
  (((splitCommas ingredients_text.data).filter
      (fun ing => !(stripChars ing).isEmpty)).map
    (fun ing => String.mk ((stripChars ing).map Char.toLower)))

/-- Name field of a recipe dictionary, used to tell the four fallback
templates apart. -/
def recipeName : Json → Option String
  | Json.obj (("name", Json.str n) :: _) => some n
  | _ => none

/-- Text-valued `Json` node. -/
def isText : Json → Bool
  | Json.str _ => true
  | _ => false

/-- Non-empty array of text `Json` nodes. -/
def isTextArr : Json → Bool
  | Json.arr xs => !xs.isEmpty && xs.all isText
  | _ => false

/-- Conformance to the Recipe record of the data model: exactly the fields
name (text), ingredients (non-empty ordered list of text), steps (non-empty
ordered list of text), time (text) and effort (text), in that order. -/
def isRecipeJson : Json → Bool
  | Json.obj [("name", n), ("ingredients", i), ("steps", s), ("time", t), ("effort", e)] =>
    isText n && isTextArr i && isTextArr s && isText t && isText e
  | _ => false

/-! Helper lemmas. -/

theorem dropLit_some {lit l r : List Char} (h : dropLit lit l = some r) :
    r.length + lit.length = l.length := by
  unfold dropLit at h
  split at h
  · rename_i hp
    cases h
    have hle : lit.length ≤ l.length :=
      (List.isPrefixOf_iff_prefix.mp hp).length_le
    simp [List.length_drop]
    omega
  · cases h

theorem length_dropWhile_le (p : Char → Bool) (l : List Char) :
    (l.dropWhile p).length ≤ l.length := by
  induction l with
  | nil => simp [List.dropWhile]
  | cons c cs ih =>
    by_cases h : p c
    · simp [List.dropWhile, h]
      omega
    · simp [List.dropWhile, h]

theorem matchFenceJson_lt {l r : List Char} (h : matchFenceJson l = some r) :
    r.length < l.length := by
  unfold matchFenceJson at h
  cases hd : dropLit ("```json").data l with
  | none => rw [hd] at h; cases h
  | some m =>
    rw [hd] at h
    cases h
    have h1 := dropLit_some hd
    have h2 := length_dropWhile_le pyIsSpace m
    have h3 : ("```json".data).length = 7 := rfl
    omega

theorem matchFence_lt {l r : List Char} (h : matchFence l = some r) :
    r.length < l.length := by
  unfold matchFence at h
  have h1 := dropLit_some h
  have h2 := length_dropWhile_le pyIsSpace l
  have h3 : ("```".data).length = 3 := rfl
  omega

theorem charOfNat_toNat {n : Nat} (h : n < 55296) : (Char.ofNat n).toNat = n := by
  have hv : n.isValidChar := Or.inl h
  simp [Char.ofNat, hv]
  rfl

theorem charToLower_idem (c : Char) : c.toLower.toLower = c.toLower := by
  unfold Char.toLower
  by_cases h : c.toNat ≥ 65 ∧ c.toNat ≤ 90
  · rw [if_pos h]
    have ht : (Char.ofNat (c.toNat + 32)).toNat = c.toNat + 32 :=
      charOfNat_toNat (by omega)
    rw [if_neg (by rw [ht]; omega)]
  · rw [if_neg h, if_neg h]

theorem countCalls_append (a b : List Event) :
    countCalls (a ++ b) = countCalls a + countCalls b := by
  simp [countCalls, List.filter_append]

theorem countCalls_pre (attempt : Nat) :
    countCalls (if attempt > 0 then [Event.sleep 1] else []) = 0 := by
  split <;> rfl

theorem safe_ai_loop_calls_le (model : Nat → Except String String) (l : List Nat) :
    countCalls (safe_ai_loop model l).2 ≤ l.length := by
  induction l with
  | nil => simp [safe_ai_loop, countCalls]
  | cons a rest ih =>
    simp only [safe_ai_loop]
    cases hm : model a with
    | ok r =>
      simp only [countCalls_append, countCalls_pre]
      simp [countCalls]
    | error e =>
      by_cases hrl : isRateLimit e
      · simp only [hrl, if_true, countCalls_append, countCalls_pre]
        have : countCalls [Event.call a,
            Event.warn ("⏳ Rate limit hit. Waiting " ++ toString ((a + 1) * 3) ++ " seconds..."),
            Event.sleep ((a + 1) * 3)] = 1 := rfl
        simp only [this, List.length_cons]
        omega
      · simp only [hrl, if_false, Bool.false_eq_true, countCalls_append, countCalls_pre]
        have : countCalls [Event.call a, Event.err ("API Error: " ++ e)] = 1 := rfl
        simp only [this, List.length_cons]
        omega

theorem safe_ai_loop_none_of_all_error (model : Nat → Except String String) (l : List Nat)
    (h : ∀ a ∈ l, ∃ e, model a = Except.error e) :
    (safe_ai_loop model l).1 = none := by
  induction l with
  | nil => rfl
  | cons a rest ih =>
    obtain ⟨e, he⟩ := h a (List.mem_cons_self a rest)
    simp only [safe_ai_loop, he]
    by_cases hrl : isRateLimit e
    · simp only [hrl, if_true]
      exact ih (fun b hb => h b (List.mem_cons_of_mem a hb))
    · simp [hrl]

theorem safe_ai_loop_err_stops (model : Nat → Except String String) (i : Nat) :
    ∀ (n a : Nat), a ≤ i → i < a + n →
    (∀ j, a ≤ j → j < i → ∃ e, model j = Except.error e ∧ isRateLimit e = true) →
    ∀ e, model i = Except.error e → isRateLimit e = false →
    (safe_ai_loop model (List.range' a n)).1 = none ∧
    countCalls (safe_ai_loop model (List.range' a n)).2 = i + 1 - a ∧
    Event.err ("API Error: " ++ e) ∈ (safe_ai_loop model (List.range' a n)).2 := by
  intro n
  induction n with
  | zero => intro a h1 h2; omega
  | succ n ih =>
    intro a h1 h2 hprev e he hnr
    rcases Nat.eq_or_lt_of_le h1 with heq | hlt
    · subst heq
      simp only [List.range'_succ, safe_ai_loop, he, hnr, Bool.false_eq_true, if_false]
      refine ⟨by simp, ?_, by simp⟩
      simp only [countCalls_append, countCalls_pre]
      have : countCalls [Event.call a, Event.err ("API Error: " ++ e)] = 1 := rfl
      rw [this]
      omega
    · obtain ⟨e', he', hrl'⟩ := hprev a (Nat.le_refl a) hlt
      simp only [List.range'_succ, safe_ai_loop, he', hrl', if_true]
      have hrec := ih (a + 1) hlt (by omega)
        (fun j hj1 hj2 => hprev j (by omega) hj2) e he hnr
      refine ⟨hrec.1, ?_, ?_⟩
      · simp only [countCalls_append, countCalls_pre]
        have : countCalls [Event.call a,
            Event.warn ("⏳ Rate limit hit. Waiting " ++ toString ((a + 1) * 3) ++ " seconds..."),
            Event.sleep ((a + 1) * 3)] = 1 := rfl
        rw [this, hrec.2.1]
        omega
      · simp only [List.mem_append]
        exact Or.inr hrec.2.2

theorem safe_ai_loop_sleep_backoff (model : Nat → Except String String) (i : Nat) :
    ∀ (n a : Nat), a ≤ i → i < a + n →
    (∀ j, a ≤ j → j ≤ i → ∃ e, model j = Except.error e ∧ isRateLimit e = true) →
    Event.sleep ((i + 1) * 3) ∈ (safe_ai_loop model (List.range' a n)).2 := by
  intro n
  induction n with
  | zero => intro a h1 h2; omega
  | succ n ih =>
    intro a h1 h2 hrl
    obtain ⟨e, he, hre⟩ := hrl a (Nat.le_refl a) h1
    simp only [List.range'_succ, safe_ai_loop, he, hre, if_true]
    rcases Nat.eq_or_lt_of_le h1 with heq | hlt
    · subst heq
      simp
    · have hrec := ih (a + 1) hlt (by omega) (fun j hj1 hj2 => hrl j (by omega) hj2)
      simp only [List.mem_append]
      exact Or.inr hrec

/-! Claim theorems. -/

/-- C1: for every ingredients list and model, if `safe_ai_request` returns
`None` (the API is unavailable or every attempt fails), then
`get_smart_recipes` returns exactly the result of `get_fallback_recipes`
applied to that same ingredients list. -/
theorem C1_fallback_on_no_response (ingredients_list : List String)
    (model : Nat → Except String String)
    (h : (safe_ai_request model).1 = none) :
    get_smart_recipes ingredients_list model = Json.arr (get_fallback_recipes ingredients_list) := by
  unfold get_smart_recipes
  rw [h]

/-- Witness for C1 at a concrete failing model and ingredient list. -/
theorem C1_fallback_on_no_response_witness :
    (safe_ai_request (fun _ => Except.error "boom")).1 = none ∧
    get_smart_recipes ["chicken"] (fun _ => Except.error "boom") =
      Json.arr (get_fallback_recipes ["chicken"]) :=
  ⟨by decide, C1_fallback_on_no_response ["chicken"] (fun _ => Except.error "boom") (by decide)⟩

/-- C3: an attempt of `safe_ai_request` that raises an error whose message
contains neither "quota" nor "rate limit" (case-insensitive) makes the
function surface the error message and return `None` immediately: exactly
the attempts up to and including the failing one are made, and no further
API call happens. -/
theorem C3_non_rate_limit_stops (model : Nat → Except String String)
    (max_retries i : Nat) (hi : i < max_retries)
    (hprev : ∀ j < i, ∃ e, model j = Except.error e ∧ isRateLimit e = true)
    (e : String) (he : model i = Except.error e) (hnr : isRateLimit e = false) :
    (safe_ai_request model max_retries).1 = none ∧
    countCalls (safe_ai_request model max_retries).2 = i + 1 ∧
    Event.err ("API Error: " ++ e) ∈ (safe_ai_request model max_retries).2 := by
  unfold safe_ai_request
  rw [List.range_eq_range']
  have := safe_ai_loop_err_stops model i max_retries 0 (Nat.zero_le i) (by omega)
    (fun j _ hj => hprev j hj) e he hnr
  simpa using this

/-- Witness for C3: a model whose very first call raises a generic error. -/
theorem C3_non_rate_limit_stops_witness :
    (safe_ai_request (fun _ => Except.error "boom")).1 = none ∧
    countCalls (safe_ai_request (fun _ => Except.error "boom")).2 = 1 ∧
    Event.err "API Error: boom" ∈ (safe_ai_request (fun _ => Except.error "boom")).2 :=
  C3_non_rate_limit_stops (fun _ => Except.error "boom") 2 0 (by omega)
    (fun j hj => absurd hj (by omega)) "boom" rfl (by decide)

/-- C4: `safe_ai_request` performs at most `max_retries` calls to the model
(it is a total function, so it terminates), and returns `None` whenever no
attempt produced a response. -/
theorem C4_retry_bound (model : Nat → Except String String) (max_retries : Nat) :
    countCalls (safe_ai_request model max_retries).2 ≤ max_retries ∧
    ((∀ i < max_retries, ∃ e, model i = Except.error e) →
      (safe_ai_request model max_retries).1 = none) := by
  constructor
  · have := safe_ai_loop_calls_le model (List.range max_retries)
    simpa using this
  · intro h
    exact safe_ai_loop_none_of_all_error model (List.range max_retries)
      (fun a ha => h a (List.mem_range.mp ha))

/-- Witness for C4 at the default retry count and an always-failing model. -/
theorem C4_retry_bound_witness :
    countCalls (safe_ai_request (fun _ => Except.error "quota")).2 ≤ 2 ∧
    (safe_ai_request (fun _ => Except.error "quota")).1 = none :=
  ⟨(C4_retry_bound (fun _ => Except.error "quota") 2).1,
   (C4_retry_bound (fun _ => Except.error "quota") 2).2
     (fun _ _ => ⟨"quota", rfl⟩)⟩

/-- C5: whenever attempt `i` (0-indexed) of `safe_ai_request` fails with a
rate-limit error (all attempts up to `i` having failed with rate-limit
errors so that attempt `i` is reached), the trace records a wait of
`(i + 1) * 3` seconds — 3s after the first rate-limited attempt, 6s after
the second — and this wait happens even when `i` is the final attempt. -/
theorem C5_linear_backoff (model : Nat → Except String String)
    (max_retries i : Nat) (hi : i < max_retries)
    (hrl : ∀ j ≤ i, ∃ e, model j = Except.error e ∧ isRateLimit e = true) :
    Event.sleep ((i + 1) * 3) ∈ (safe_ai_request model max_retries).2 := by
  unfold safe_ai_request
  rw [List.range_eq_range']
  exact safe_ai_loop_sleep_backoff model i max_retries 0 (Nat.zero_le i) (by omega)
    (fun j _ hj => hrl j hj)

/-- Witness for C5: with the default `max_retries = 2` and every call
rate-limited, the final attempt `i = 1` still waits 6 seconds. -/
theorem C5_linear_backoff_witness :
    Event.sleep 6 ∈ (safe_ai_request (fun _ => Except.error "quota hit")).2 :=
  C5_linear_backoff (fun _ => Except.error "quota hit") 2 1 (by omega)
    (fun j _ => ⟨"quota hit", rfl, by decide⟩)
/-- C9: `get_fallback_recipes` can return the empty list on non-empty
input — with every ingredient name of length at most 2 (here `["ab"]`), or
with fewer than 3 usable ingredients none of which matches a template
keyword (here `["rice", "egg"]`) — so a failed API call can end with zero
recipes shown by `get_smart_recipes`. -/
theorem C9_empty_fallback_possible :
    (["ab"] : List String) ≠ [] ∧
    get_fallback_recipes ["ab"] = [] ∧
    (["rice", "egg"] : List String) ≠ [] ∧
    get_fallback_recipes ["rice", "egg"] = [] ∧
    get_smart_recipes ["rice", "egg"] (fun _ => Except.error "boom") = Json.arr [] :=
  ⟨by simp, rfl, by simp, rfl, rfl⟩

/-- C10: the ingredients list `main` passes to recipe generation is the
comma-split of the raw input with each segment stripped and lowercased,
empty-after-stripping segments dropped, order preserved (the first
conjunct: filtering before mapping equals stripping every segment, dropping
the empty ones and lowercasing, in order); consequently every element is
non-empty and lowercase (fixed by lowercasing). -/
theorem C10_ingredient_parsing (t : String) :
    parse_ingredients t =
      (((splitCommas t.data).map stripChars).filter (fun s => !s.isEmpty)).map
        (fun s => String.mk (s.map Char.toLower)) ∧
    ∀ s ∈ parse_ingredients t, s ≠ "" ∧ String.mk (py_lower s) = s := by
  constructor
  · simp [parse_ingredients, List.filter_map, Function.comp_def]
  · intro s hs
    simp only [parse_ingredients, List.mem_map, List.mem_filter] at hs
    obtain ⟨ing, ⟨_, hne⟩, rfl⟩ := hs
    constructor
    · intro h
      have hd := congrArg String.data h
      simp only [String.mk] at hd
      simp only [List.map_eq_nil_iff] at hd
      rw [hd] at hne
      simp at hne
    · simp [py_lower, List.map_map, Function.comp_def, charToLower_idem]

/-- Witness for C10 at a concrete raw input. -/
theorem C10_ingredient_parsing_witness :
    parse_ingredients " Chicken, rice ,, egg" =
      ((((splitCommas (" Chicken, rice ,, egg").data).map stripChars).filter
          (fun s => !s.isEmpty)).map (fun s => String.mk (s.map Char.toLower))) ∧
    ("chicken" ≠ "" ∧ String.mk (py_lower "chicken") = "chicken") :=
  ⟨(C10_ingredient_parsing " Chicken, rice ,, egg").1,
   (C10_ingredient_parsing " Chicken, rice ,, egg").2 "chicken" (by decide)⟩

/-- C2 as stated is false on the code: for the response text below the
stripped text is not valid JSON, the brace extraction parses to an object
whose "recipes" entry is empty — "this extraction yields no recipes" — yet
`get_smart_recipes` returns that empty list, not the static fallback
templates (line 121 of app.py uses the fallback only as the `.get`
default, so a present-but-empty "recipes" key is returned as-is). -/
theorem C2_extraction_counterexample :
    jsonLoadsList (clean_response "x\x7b\x22recipes\x22: []\x7d") = none ∧
    extractBraces (clean_response "x\x7b\x22recipes\x22: []\x7d") =
      some ("\x7b\x22recipes\x22: []\x7d").data ∧
    jsonLoadsList ("\x7b\x22recipes\x22: []\x7d").data =
      some (Json.obj [("recipes", Json.arr [])]) ∧
    get_smart_recipes ["chicken"] (fun _ => Except.ok "x\x7b\x22recipes\x22: []\x7d") =
      Json.arr [] ∧
    Json.arr [] ≠ Json.arr (get_fallback_recipes ["chicken"]) := by
  refine ⟨rfl, rfl, rfl, rfl, ?_⟩
  rw [show get_fallback_recipes ["chicken"] = [stirFryRecipe ["chicken"]] from rfl]
  simp

/-- C2 (amended): for every ingredients list and response text whose
cleaned form (markdown fences stripped) is not valid JSON,
`get_smart_recipes` parses the substring from the first opening brace to
the last closing brace; when there is no such substring, or it fails to
parse, the static fallback templates are returned; when it parses to an
object, the value of its "recipes" key is returned as-is when the key is
present (in particular an empty recipes list is returned as the empty
result, NOT replaced by the fallback), and the fallback templates are used
only when the key is absent. -/
theorem C2_extraction_amended (ingredients_list : List String) (txt : String)
    (h : jsonLoadsList (clean_response txt) = none) :
    (extractBraces (clean_response txt) = none →
      handle_response ingredients_list txt = Json.arr (get_fallback_recipes ingredients_list)) ∧
    (∀ sub, extractBraces (clean_response txt) = some sub →
      (jsonLoadsList sub = none →
        handle_response ingredients_list txt = Json.arr (get_fallback_recipes ingredients_list)) ∧
      (∀ kvs, jsonLoadsList sub = some (Json.obj kvs) →
        handle_response ingredients_list txt =
          (dictGet kvs "recipes").getD (Json.arr (get_fallback_recipes ingredients_list)))) := by
  simp only [handle_response]
  rw [h]
  refine ⟨?_, ?_⟩
  · intro he
    simp only [he]
  · intro sub hs
    simp only [hs]
    refine ⟨?_, ?_⟩
    · intro hn
      simp only [hn]
    · intro kvs hk
      simp only [hk]

/-- Witness for C2 (amended) at a concrete unparsable response with no
brace-delimited substring. -/
theorem C2_extraction_amended_witness :
    jsonLoadsList (clean_response "not json") = none ∧
    extractBraces (clean_response "not json") = none ∧
    handle_response ["chicken"] "not json" = Json.arr (get_fallback_recipes ["chicken"]) :=
  ⟨rfl, rfl, (C2_extraction_amended ["chicken"] "not json" rfl).1 rfl⟩

theorem recipeJson_ne {n1 n2 : String} (h : n1 ≠ n2)
    (i1 s1 : List String) (t1 e1 : String) (i2 s2 : List String) (t2 e2 : String) :
    recipeJson n1 i1 s1 t1 e1 ≠ recipeJson n2 i2 s2 t2 e2 := by
  intro he
  have hn := congrArg recipeName he
  simp only [recipeJson, recipeName, Option.some.injEq] at hn
  exact h hn

theorem stirFry_ne_salad (u f : List String) : stirFryRecipe u ≠ freshSaladRecipe f :=
  recipeJson_ne (by decide) _ _ _ _ _ _ _ _

theorem stirFry_ne_pasta (u v : List String) : stirFryRecipe u ≠ simplePastaRecipe v :=
  recipeJson_ne (by decide) _ _ _ _ _ _ _ _

theorem stirFry_ne_cooked (u v : List String) : stirFryRecipe u ≠ simpleCookedRecipe v :=
  recipeJson_ne (by decide) _ _ _ _ _ _ _ _

theorem salad_ne_stirFry (f u : List String) : freshSaladRecipe f ≠ stirFryRecipe u :=
  recipeJson_ne (by decide) _ _ _ _ _ _ _ _

theorem salad_ne_pasta (f u : List String) : freshSaladRecipe f ≠ simplePastaRecipe u :=
  recipeJson_ne (by decide) _ _ _ _ _ _ _ _

theorem salad_ne_cooked (f u : List String) : freshSaladRecipe f ≠ simpleCookedRecipe u :=
  recipeJson_ne (by decide) _ _ _ _ _ _ _ _

theorem pasta_ne_stirFry (u v : List String) : simplePastaRecipe u ≠ stirFryRecipe v :=
  recipeJson_ne (by decide) _ _ _ _ _ _ _ _

theorem pasta_ne_salad (u f : List String) : simplePastaRecipe u ≠ freshSaladRecipe f :=
  recipeJson_ne (by decide) _ _ _ _ _ _ _ _

theorem pasta_ne_cooked (u v : List String) : simplePastaRecipe u ≠ simpleCookedRecipe v :=
  recipeJson_ne (by decide) _ _ _ _ _ _ _ _

theorem cooked_ne_stirFry (u v : List String) : simpleCookedRecipe u ≠ stirFryRecipe v :=
  recipeJson_ne (by decide) _ _ _ _ _ _ _ _

theorem cooked_ne_salad (u f : List String) : simpleCookedRecipe u ≠ freshSaladRecipe f :=
  recipeJson_ne (by decide) _ _ _ _ _ _ _ _

theorem cooked_ne_pasta (u v : List String) : simpleCookedRecipe u ≠ simplePastaRecipe v :=
  recipeJson_ne (by decide) _ _ _ _ _ _ _ _

theorem fallback_mem_cases (l : List String) (r : Json) (h : r ∈ get_fallback_recipes l) :
    r = stirFryRecipe (usableIngs l) ∨ r = freshSaladRecipe (freshIngs l) ∨
    r = simplePastaRecipe (usableIngs l) ∨ r = simpleCookedRecipe (usableIngs l) := by
  unfold get_fallback_recipes at h
  by_cases h1 : stirGuard l <;> by_cases h2 : 2 ≤ (freshIngs l).length <;>
    by_cases h3 : pastaGuard l <;> by_cases h4 : 3 ≤ (usableIngs l).length <;>
    simp [h1, h2, h3, h4] at h <;> tauto

/-- C6: fallback template selection is keyed by substring matches — the
stir-fry template is included iff some keyword in chicken/beef/tofu/
vegetable/broccoli/carrot occurs as a substring of the space-joined usable
ingredient names (`stirGuard`), the salad template iff at least 2 usable
ingredients contain a keyword in lettuce/tomato/cucumber/onion/spinach
(`freshIngs`), and the pasta template iff some keyword in
pasta/noodle/spaghetti occurs in the joined usable names (`pastaGuard`). -/
theorem C6_keyword_templates (l : List String) :
    (stirFryRecipe (usableIngs l) ∈ get_fallback_recipes l ↔ stirGuard l = true) ∧
    (freshSaladRecipe (freshIngs l) ∈ get_fallback_recipes l ↔ 2 ≤ (freshIngs l).length) ∧
    (simplePastaRecipe (usableIngs l) ∈ get_fallback_recipes l ↔ pastaGuard l = true) := by
  unfold get_fallback_recipes
  by_cases h1 : stirGuard l <;> by_cases h2 : 2 ≤ (freshIngs l).length <;>
    by_cases h3 : pastaGuard l <;> by_cases h4 : 3 ≤ (usableIngs l).length <;>
    simp [h1, h2, h3, h4, stirFry_ne_salad, stirFry_ne_pasta, stirFry_ne_cooked,
      salad_ne_stirFry, salad_ne_pasta, salad_ne_cooked,
      pasta_ne_stirFry, pasta_ne_salad, pasta_ne_cooked]

/-- C8: `get_fallback_recipes` returns at most 3 recipes, and the catch-all
"Simple Cooked Dish" template appears only when no keyword-matched template
was added (all three guards are off) and at least 3 usable ingredients
(names longer than 2 characters) exist. -/
theorem C8_cap_and_catch_all (l : List String) :
    (get_fallback_recipes l).length ≤ 3 ∧
    (simpleCookedRecipe (usableIngs l) ∈ get_fallback_recipes l →
      stirGuard l = false ∧ (freshIngs l).length < 2 ∧ pastaGuard l = false ∧
      3 ≤ (usableIngs l).length) := by
  constructor
  · unfold get_fallback_recipes
    simp only [List.length_take]
    omega
  · intro hm
    unfold get_fallback_recipes at hm
    by_cases h1 : stirGuard l <;> by_cases h2 : 2 ≤ (freshIngs l).length <;>
      by_cases h3 : pastaGuard l <;> by_cases h4 : 3 ≤ (usableIngs l).length <;>
      simp [h1, h2, h3, h4, cooked_ne_stirFry, cooked_ne_salad, cooked_ne_pasta] at hm ⊢
    all_goals omega

/-- Witness for C8 at a concrete list whose fallback is the catch-all
template. -/
theorem C8_cap_and_catch_all_witness :
    (get_fallback_recipes ["rice", "egg", "flour"]).length ≤ 3 ∧
    (stirGuard ["rice", "egg", "flour"] = false ∧
      (freshIngs ["rice", "egg", "flour"]).length < 2 ∧
      pastaGuard ["rice", "egg", "flour"] = false ∧
      3 ≤ (usableIngs ["rice", "egg", "flour"]).length) := by
  have hm : simpleCookedRecipe (usableIngs ["rice", "egg", "flour"]) ∈
      get_fallback_recipes ["rice", "egg", "flour"] := by
    rw [show get_fallback_recipes ["rice", "egg", "flour"] =
      [simpleCookedRecipe (usableIngs ["rice", "egg", "flour"])] from rfl]
    exact List.mem_singleton.mpr rfl
  exact ⟨(C8_cap_and_catch_all ["rice", "egg", "flour"]).1,
    (C8_cap_and_catch_all ["rice", "egg", "flour"]).2 hm⟩

theorem isRecipeJson_recipeJson (n : String) (ings steps : List String) (t e : String)
    (h1 : ings ≠ []) (h2 : steps ≠ []) :
    isRecipeJson (recipeJson n ings steps t e) = true := by
  simp [isRecipeJson, recipeJson, isTextArr, isText, List.all_map, Function.comp_def, h1, h2,
    List.all_eq_true]

/-- C7: every recipe returned by `get_fallback_recipes` conforms to the
Recipe record — exactly the fields name (text), ingredients (ordered list
of text), steps (ordered list of text), time (text), effort (text), with
the ingredients and steps lists non-empty. -/
theorem C7_fallback_recipe_shape (l : List String) :
    ∀ r ∈ get_fallback_recipes l, isRecipeJson r = true := by
  intro r hr
  rcases fallback_mem_cases l r hr with h | h | h | h <;> subst h
  · exact isRecipeJson_recipeJson _ _ _ _ _ (by simp) (by simp)
  · exact isRecipeJson_recipeJson _ _ _ _ _ (by simp) (by simp)
  · exact isRecipeJson_recipeJson _ _ _ _ _ (by simp) (by simp)
  · exact isRecipeJson_recipeJson _ _ _ _ _ (by simp) (by simp)

/-- Witness for C7 at a concrete ingredient list and its stir-fry
fallback. -/
theorem C7_fallback_recipe_shape_witness :
    stirFryRecipe (usableIngs ["chicken"]) ∈ get_fallback_recipes ["chicken"] ∧
    isRecipeJson (stirFryRecipe (usableIngs ["chicken"])) = true := by
  have hm : stirFryRecipe (usableIngs ["chicken"]) ∈ get_fallback_recipes ["chicken"] := by
    rw [show get_fallback_recipes ["chicken"] =
      [stirFryRecipe (usableIngs ["chicken"])] from rfl]
    exact List.mem_singleton.mpr rfl
  exact ⟨hm, C7_fallback_recipe_shape ["chicken"] _ hm⟩

example : get_fallback_recipes ["ab"] = [] := rfl
example : get_fallback_recipes ["rice", "egg"] = [] := rfl
example : (get_fallback_recipes ["chicken"]).length = 1 := rfl
example : (get_fallback_recipes ["tomato", "lettuce", "pasta", "chicken"]).length = 3 := rfl
example : (get_fallback_recipes ["rice", "egg", "flour"]).length = 1 := rfl
example : handle_response ["chicken"] "x\x7b\x22recipes\x22: []\x7d" = Json.arr [] := rfl

example : extractBraces "no braces at all".data = none := rfl
example : extractBraces "ab\x7bc\x7dd\x7de".data = some "\x7bc\x7dd\x7d".data := rfl
example : extractBraces "\x7dab\x7bcd".data = none := rfl
example : subFences "```json\n ab\n```".data = "ab".data := rfl
example : subFences "x ``` y```json  z".data = "x yz".data := rfl
example : clean_response "  ```json\n\x7b\x22a\x22:1\x7d\n``` " = "\x7b\x22a\x22:1\x7d".data := rfl
example : parse_ingredients " Chicken, rice ,, egg" = ["chicken", "rice", "egg"] := rfl

example : json_loads "null" = some Json.null := rfl
example : json_loads " true " = some (Json.bool true) := rfl
example : json_loads "not json" = none := rfl
example : json_loads "[1, 2]" = some (Json.arr [Json.num "1", Json.num "2"]) := rfl
example : json_loads "\x7b\x7d" = some (Json.obj []) := rfl
example : json_loads "\x7b\x22a\x22: []\x7d" = some (Json.obj [("a", Json.arr [])]) := rfl
example : json_loads "\x7b\x22a\x22: \x22b\x22,\x22a\x22:1\x7d" = some (Json.obj [("a", Json.str "b"), ("a", Json.num "1")]) := rfl
example : json_loads "x\x7b\x22a\x22: []\x7d" = none := rfl
example : json_loads "[0.5e-3, -12]" = some (Json.arr [Json.num "0.5e-3", Json.num "-12"]) := rfl
example : json_loads "01" = none := rfl
example : json_loads "\x22a\x5cnb\x22" = some (Json.str "a\nb") := rfl
example : pyTruthy (Json.num "0.00e5") = false := rfl
example : pyTruthy (Json.num "-0.01") = true := rfl
example : dictGet [("a", Json.str "b"), ("a", Json.num "1")] "a" = some (Json.num "1") := rfl

example : safe_ai_request (fun _ => Except.error "boom") = (none, [Event.call 0, Event.err "API Error: boom"]) := by decide
example : (safe_ai_request (fun _ => Except.error "quota exceeded")).1 = none := by decide
example : countCalls (safe_ai_request (fun _ => Except.error "Quota hit")).2 = 2 := by decide
example : Event.sleep 6 ∈ (safe_ai_request (fun _ => Except.error "rate limit")).2 := by decide
example : (safe_ai_request (fun n => if n = 1 then Except.ok "hi" else Except.error "quota")).1 = some "hi" := by decide
